import Mathlib

/-!
Verification development for the ChatOrbit ephemeral-session backend
(`backend/app/main.py`, `backend/app/models.py`, `backend/app/schemas.py`,
`backend/app/config.py`).

The Python handlers are embedded as pure Lean functions:
* wall-clock instants (`datetime.utcnow()`) become `Int` seconds,
  `timedelta` becomes a number of seconds;
* the database rows touched by a handler become explicit record values,
  a handler becomes a function from the pre-state to the post-state;
* a raised `HTTPException` becomes the `Except` error branch (FastAPI
  rolls the transaction back, so an error leaves the store unchanged);
* Python truthiness on optional strings (`if client_identity:`) is made
  explicit by `optStrTruthy`.
-/

namespace ChatOrbit

/-- `SessionStatus` from `models.py`. -/
inductive SessionStatus
  | issued
  | active
  | closed
  | expired
  | deleted
deriving DecidableEq, Repr

/-- `AbuseReportStatus`. `models.py` in this tree declares open/acknowledged/closed;
`main.py` additionally references an `INVESTIGATING` member, which the spec also
lists (triage status ∈ \x7bopen, acknowledged, investigating, closed\x7d), so the
full enum is included. `open` is a Lean keyword, hence `open_`. -/
inductive AbuseReportStatus
  | open_
  | acknowledged
  | investigating
  | closed
deriving DecidableEq, Repr

/-- Python truthiness of an optional string: `None` and `""` are falsy. -/
def optStrTruthy : Option String → Bool
  | none => false
  | some s => s ≠ ""

/-- `SessionParticipant` row (`models.py`; the `internal_ip_address` and
`request_headers` columns are the ones `main.py` and `schemas.py` read and
write on participants). -/
structure SessionParticipant where
  id : String
  role : String
  ip_address : String
  internal_ip_address : String
  client_identity : Option String
  request_headers : Option String
  joined_at : Int
deriving DecidableEq, Repr

/-- `TokenSession` row together with its owned participant list
(`session_model.participants`). -/
structure TokenSession where
  token : String
  validity_expires_at : Int
  session_ttl_seconds : Int
  message_char_limit : Int
  created_at : Int
  started_at : Option Int
  ended_at : Option Int
  status : SessionStatus
  participants : List SessionParticipant
deriving DecidableEq, Repr

/-- `TokenRequestLog` row. -/
structure TokenRequestLog where
  ip_address : String
  internal_ip_address : String
  client_identity : Option String
  created_at : Int
deriving DecidableEq, Repr

/-- The structured failure kinds raised by the handlers
(`HTTPException` status codes used in `main.py`). -/
inductive ApiError
  | notFound (detail : String)
  | gone (detail : String)
  | conflict (detail : String)
  | tooManyRequests (detail : String)
  | badRequest (detail : String)
deriving DecidableEq, Repr

/-- The terminal-state set `\x7bCLOSED, EXPIRED, DELETED\x7d` that `main.py`
writes inline at each of its occurrences. -/
def SessionStatus.isTerminal : SessionStatus → Bool
  | .closed => true
  | .expired => true
  | .deleted => true
  | _ => false

/-- `ensure_session_state` (main.py:306): lazy status recomputation. -/
def ensure_session_state (now : Int) (s : TokenSession) : TokenSession :=
  if s.status.isTerminal then s
  else if s.status = SessionStatus.issued ∧ now > s.validity_expires_at then
    { s with status := SessionStatus.expired }
  else if s.status = SessionStatus.active ∧ s.ended_at.any (fun e => now ≥ e) then
    { s with status := SessionStatus.closed }
  else s

/-- `JoinSessionResponse` (schemas.py). -/
structure JoinSessionResponse where
  token : String
  participant_id : String
  role : String
  session_active : Bool
  session_started_at : Option Int
  session_expires_at : Option Int
  message_char_limit : Int
deriving DecidableEq, Repr

/-- The metadata refresh performed on both reclaim paths of `join_session`
(main.py:606 and main.py:648): addresses, client identity and — only when a
snapshot was produced — the request-header snapshot. The Python code assigns
each field only when it differs, which yields the same record. -/
def updateParticipantMetadata (ip iip : String) (ci : Option String)
    (hs : Option String) (p : SessionParticipant) : SessionParticipant :=
  { p with
    ip_address := ip
    internal_ip_address := iip
    client_identity := ci
    request_headers := match hs with
      | none => p.request_headers
      | some h => some h }

/-- Build the join response from the (refreshed) session and participant data
(the literal `JoinSessionResponse(...)` blocks in `join_session`). -/
def mkJoinResponse (s : TokenSession) (pid role : String) : JoinSessionResponse :=
  { token := s.token
    participant_id := pid
    role := role
    session_active := s.status = SessionStatus.active
    session_started_at := s.started_at
    session_expires_at := s.ended_at
    message_char_limit := s.message_char_limit }

/-- `join_session` (main.py:577-711). Parameters that the handler obtains
from the environment are passed explicitly: `now` (`utcnow()`), the resolved
addresses, the request-header snapshot, and `new_id` (the `uuid4().hex`
primary-key default used when a fresh participant row is inserted). -/
def join_session (now : Int) (ip iip : String) (hs : Option String)
    (req_participant_id req_client_identity : Option String)
    (new_id : String) (s0 : TokenSession) :
    Except ApiError (TokenSession × JoinSessionResponse) :=
  let s := ensure_session_state now s0
  if s.status = SessionStatus.expired then
    .error (.gone "Token expired.")
  else if s.status = SessionStatus.closed then
    .error (.gone "Session already closed.")
  else if s.status = SessionStatus.deleted then
    .error (.gone "Session has been deleted.")
  else if optStrTruthy req_participant_id then
    -- explicit reclaim path: `if request.participant_id:`
    let pid := req_participant_id.getD ""
    match s.participants.find? (fun p => p.id == pid) with
    | none => .error (.notFound "Participant record not found for this session.")
    | some p =>
      let p1 := updateParticipantMetadata ip iip req_client_identity hs p
      let s1 := { s with participants :=
        s.participants.map (fun q => if q.id == pid then p1 else q) }
      .ok (s1, mkJoinResponse s1 p.id p.role)
  else
    -- identity-based reclaim, then address-based reclaim
    let byIdentity : Option SessionParticipant :=
      if optStrTruthy req_client_identity then
        s.participants.find? (fun p => p.client_identity == req_client_identity)
      else none
    let existing : Option SessionParticipant :=
      if !optStrTruthy req_client_identity && byIdentity.isNone then
        s.participants.find? (fun p => p.ip_address == ip)
      else byIdentity
    match existing with
    | some p =>
      let p1 := updateParticipantMetadata ip iip req_client_identity hs p
      let s1 := { s with participants :=
        s.participants.map (fun q => if q.id == p.id then p1 else q) }
      .ok (s1, mkJoinResponse s1 p.id p.role)
    | none =>
      if s.participants.length ≥ 2 then
        .error (.conflict "Session already has two participants.")
      else
        let role := if s.participants.isEmpty then "host" else "guest"
        let newP : SessionParticipant :=
          { id := new_id
            role := role
            ip_address := ip
            internal_ip_address := iip
            client_identity := req_client_identity
            request_headers := hs
            joined_at := now }
        let s1 := { s with participants := s.participants ++ [newP] }
        let s2 :=
          if role = "guest" then
            { s1 with
              status := SessionStatus.active
              started_at := some now
              ended_at := some (now + s1.session_ttl_seconds) }
          else s1
        .ok (s2, mkJoinResponse s2 new_id role)

/-- `ValidityPeriod.as_timedelta` (schemas.py), in seconds. -/
inductive ValidityPeriod
  | one_day
  | one_week
  | one_month
  | one_year
deriving DecidableEq, Repr

def ValidityPeriod.as_timedelta : ValidityPeriod → Int
  | .one_day => 86400
  | .one_week => 7 * 86400
  | .one_month => 30 * 86400
  | .one_year => 365 * 86400

/-- `enforce_rate_limit` (main.py:281): counts `TokenRequestLog` rows for the
requesting identifier inside the trailing one-hour window and raises 429 when
the count reaches `settings.token_rate_limit_per_hour` (`threshold`). -/
def enforce_rate_limit (threshold : Nat) (now : Int)
    (logs : List TokenRequestLog) (ip : String)
    (client_identity : Option String) : Except ApiError Unit :=
  let window_start := now - 3600
  let count :=
    if optStrTruthy client_identity then
      (logs.filter (fun l =>
        l.client_identity == client_identity && l.created_at ≥ window_start)).length
    else
      (logs.filter (fun l =>
        l.ip_address == ip && l.created_at ≥ window_start)).length
  if count ≥ threshold then
    .error (.tooManyRequests
      "Token request limit reached for this identifier. Please try again later.")
  else .ok ()

/-- `issue_token` (main.py:530-574). `minLimit`/`maxLimit` are
`settings.min_message_char_limit`/`settings.max_message_char_limit`,
`token_value` is the `uuid4().hex` value. On success the handler commits the
new session row and exactly one new request-log row. -/
def issue_token (threshold : Nat) (minLimit maxLimit : Int) (now : Int)
    (logs : List TokenRequestLog) (ip iip : String)
    (client_identity : Option String) (validity_period : ValidityPeriod)
    (session_ttl_minutes : Int) (message_char_limit : Int)
    (token_value : String) :
    Except ApiError (List TokenRequestLog × TokenSession) :=
  match enforce_rate_limit threshold now logs ip client_identity with
  | .error e => .error e
  | .ok _ =>
    let message_limit := min (max message_char_limit minLimit) maxLimit
    let session : TokenSession :=
      { token := token_value
        validity_expires_at := now + validity_period.as_timedelta
        session_ttl_seconds := session_ttl_minutes * 60
        message_char_limit := message_limit
        created_at := now
        started_at := none
        ended_at := none
        status := SessionStatus.issued
        participants := [] }
    let log : TokenRequestLog :=
      { ip_address := ip
        internal_ip_address := iip
        client_identity := client_identity
        created_at := now }
    .ok (logs ++ [log], session)

/-- The questionnaire payload of an abuse report (schemas.py). -/
structure ReportAbuseQuestionnaire where
  immediate_threat : Bool
  involves_criminal_activity : Bool
  requires_follow_up : Bool
  additional_details : Option String
deriving DecidableEq, Repr

/-- One entry of the frozen remote-participant snapshot that
`_collect_remote_participants` serialises to JSON (the dict literal at
main.py:448-457), kept structured here. -/
structure RemoteParticipantSnapshot where
  participant_id : String
  role : String
  ip_address : String
  internal_ip_address : String
  client_identity : Option String
  joined_at : Int
deriving DecidableEq, Repr

/-- `AbuseReport` row. The columns written by `report_abuse`; the
`escalation_step` and `admin_notes` columns are the ones `update_admin_report`
and `schemas.py` read and write (the spec lists them as optional
escalation-step label and optional admin notes). The ORM-managed
`created_at`/`updated_at` column defaults stay at the persistence layer and
are not part of this embedding. -/
structure AbuseReportRec where
  session_token : String
  reporter_email : String
  reporter_ip : Option String
  participant_id : Option String
  remote_participants : List RemoteParticipantSnapshot
  summary : String
  questionnaire : ReportAbuseQuestionnaire
  escalation_step : Option String
  admin_notes : Option String
  status : AbuseReportStatus
deriving DecidableEq, Repr

/-- The snapshot taken of one participant row. -/
def snapshotOfParticipant (p : SessionParticipant) : RemoteParticipantSnapshot :=
  { participant_id := p.id
    role := p.role
    ip_address := p.ip_address
    internal_ip_address := p.internal_ip_address
    client_identity := p.client_identity
    joined_at := p.joined_at }

/-- `_collect_remote_participants` (main.py:440): every participant except the
reporter (`if reporter_id and participant.id == reporter_id: continue`). -/
def _collect_remote_participants (s : TokenSession)
    (reporter_id : Option String) : List RemoteParticipantSnapshot :=
  (s.participants.filter (fun p =>
    !(optStrTruthy reporter_id && reporter_id == some p.id))).map
    snapshotOfParticipant

/-- `report_abuse` (main.py:724-767), the transactional part: resolve the
reporter id (an id that does not belong to the session is demoted to `None`),
build the report row with status OPEN and the frozen snapshot, and — when the
session is not terminal — force it to DELETED. The email and broadcast side
effects are best-effort background tasks outside the transaction. -/
def report_abuse (now : Int) (reporter_ip : Option String)
    (req_participant_id : Option String) (reporter_email summary : String)
    (questionnaire : ReportAbuseQuestionnaire) (s0 : TokenSession) :
    TokenSession × AbuseReportRec :=
  let s := ensure_session_state now s0
  let reporter_id : Option String :=
    if optStrTruthy req_participant_id &&
        !(s.participants.any (fun p => some p.id == req_participant_id)) then
      none
    else req_participant_id
  let record : AbuseReportRec :=
    { session_token := s.token
      reporter_email := reporter_email
      reporter_ip := reporter_ip
      participant_id := reporter_id
      remote_participants := _collect_remote_participants s reporter_id
      summary := summary
      questionnaire := questionnaire
      escalation_step := none
      admin_notes := none
      status := AbuseReportStatus.open_ }
  let s1 :=
    if s.status.isTerminal then s
    else
      { s with
        started_at := match s.started_at with
          | none => some now
          | some t => some t
        ended_at := some now
        status := SessionStatus.deleted }
  (s1, record)

/-- `delete_session` (main.py:820-840), the transactional part. -/
def delete_session (now : Int) (s0 : TokenSession) : TokenSession :=
  let s := ensure_session_state now s0
  if s.status ≠ SessionStatus.deleted then
    { s with
      started_at := match s.started_at with
        | none => some now
        | some t => some t
      ended_at := some now
      status := SessionStatus.deleted }
  else s

/-- The `asyncio.TimeoutError` branch of the websocket receive loop
(main.py:1140-1147): reload the session, recompute its state, then
unconditionally set status CLOSED and fill `ended_at` when unset
(`session_model.ended_at = session_model.ended_at or utcnow()`). -/
def websocket_timeout_handler (now : Int) (s0 : TokenSession) : TokenSession :=
  let s := ensure_session_state now s0
  { s with
    status := SessionStatus.closed
    ended_at := match s.ended_at with
      | some e => some e
      | none => some now }

/-- Python `str.strip()` (whitespace from both ends). -/
def pyStrip (s : String) : String :=
  let cs := s.toList.dropWhile Char.isWhitespace
  String.mk ((cs.reverse.dropWhile Char.isWhitespace).reverse)

/-- Python `str.lower()` (character-wise). -/
def strLower (s : String) : String :=
  String.mk (s.toList.map Char.toLower)

/-- Whether the first character list leads the second. -/
def charListLeads : List Char → List Char → Bool
  | [], _ => true
  | _ :: _, [] => false
  | a :: as, b :: bs => a = b && charListLeads as bs

/-- Python `str.startswith(pre)`. -/
def strStartsWith (s pre : String) : Bool :=
  charListLeads pre.toList s.toList

/-- Python `str.endswith(suf)`. -/
def strEndsWith (s suf : String) : Bool :=
  charListLeads suf.toList.reverse s.toList.reverse

/-- Split a character list at every occurrence of `c`. -/
def splitCharList (c : Char) : List Char → List (List Char)
  | [] => [[]]
  | x :: xs =>
    match splitCharList c xs with
    | [] => [[]]
    | h :: t => if x = c then [] :: h :: t else (x :: h) :: t

/-- Python `str.split(sep)` for a one-character separator. -/
def splitOnChar (c : Char) (s : String) : List String :=
  (splitCharList c s.toList).map String.mk

/-- The numeric value of a list of decimal digits. -/
def digitsToNat (cs : List Char) : Nat :=
  cs.foldl (fun acc c => acc * 10 + (c.toNat - 48)) 0

/-- `_normalize_optional_text` (main.py:397): strip, empty becomes `None`. -/
def _normalize_optional_text : Option String → Option String
  | none => none
  | some v =>
    let cleaned := pyStrip v
    if cleaned = "" then none else some cleaned

/-- `AdminUpdateAbuseReportRequest` (schemas.py). -/
structure AdminUpdateAbuseReportRequest where
  status : Option AbuseReportStatus
  escalation_step : Option String
  admin_notes : Option String
deriving DecidableEq, Repr

/-- `update_admin_report` (main.py:977-1023) acting on the stored report rows
(`report_id ↦ row`). The Python code assigns each field only when the new
value differs from the stored one; the resulting row is the same. -/
def update_admin_report (updates : AdminUpdateAbuseReportRequest)
    (reports : List (Nat × AbuseReportRec)) (report_id : Nat) :
    Except ApiError AbuseReportRec :=
  if updates.status = none ∧ updates.escalation_step = none ∧
      updates.admin_notes = none then
    .error (.badRequest "At least one field must be provided to update the report.")
  else
    match (reports.find? (fun r => r.fst == report_id)).map Prod.snd with
    | none => .error (.notFound "Abuse report not found.")
    | some report =>
      let r1 := match updates.status with
        | some st => { report with status := st }
        | none => report
      let r2 := match updates.escalation_step with
        | some es => { r1 with escalation_step := _normalize_optional_text (some es) }
        | none => r1
      let r3 := match updates.admin_notes with
        | some an => { r2 with admin_notes := _normalize_optional_text (some an) }
        | none => r2
      .ok r3

/-- The JSON values a `json.loads` call can produce. -/
inductive Json
  | null
  | bool (b : Bool)
  | num (n : Int)
  | str (s : String)
  | arr (elems : List Json)
  | obj (fields : List (String × Json))

/-- Python `payload.get(key)` on a dict: `None` when the key is absent.
Dict keys are unique, so first-match lookup is exact. -/
def jsonGet (fields : List (String × Json)) (key : String) : Option Json :=
  (fields.find? (fun kv => kv.fst == key)).map Prod.snd

/-- Python truthiness of a `payload.get(...)` result (`if not signal_type:`). -/
def jsonTruthy : Option Json → Bool
  | none => false
  | some Json.null => false
  | some (Json.bool b) => b
  | some (Json.num n) => n ≠ 0
  | some (Json.str s) => s ≠ ""
  | some (Json.arr elems) => !elems.isEmpty
  | some (Json.obj fields) => !fields.isEmpty

/-- The result of running one inbound websocket frame through `json.loads`:
either a `JSONDecodeError`, or a parsed JSON value. -/
inductive InboundData
  | invalidJson
  | parsed (payload : Json)

/-- What the message branch of the receive loop does with one inbound frame:
a private unicast error reply, a relay broadcast, or an uncaught
`AttributeError` (from `payload.get(...)` on a non-dict value) that
terminates the connection loop. -/
inductive WsAction
  | sendError (participant_id : String) (message : String)
  | relaySignal (signalType : Json) (payload : Option Json) (sender : String)
  | raiseAttributeError

/-- The inbound-message branch of `websocket_session` (main.py:1153-1176).
`json.loads` failure replies `Invalid payload format.`; a dict whose `type`
is `"signal"` with a truthy `signalType` is relayed (excluding the sender);
a signal without a truthy `signalType` replies `signalType is required.`;
any other dict replies `Unsupported message type.`; a parsed value that is
not a dict makes `payload.get("type")` raise `AttributeError`, which is not
caught inside the loop. -/
def handle_inbound (sender : String) : InboundData → WsAction
  | .invalidJson => .sendError sender "Invalid payload format."
  | .parsed (Json.obj fields) =>
    -- `message_type == "signal"`: equal only when the value is that string
    match jsonGet fields "type" with
    | some (Json.str t) =>
      if t = "signal" then
        let st := jsonGet fields "signalType"
        if !jsonTruthy st then .sendError sender "signalType is required."
        else .relaySignal (st.getD Json.null) (jsonGet fields "payload") sender
      else .sendError sender "Unsupported message type."
    | _ => .sendError sender "Unsupported message type."
  | .parsed _ => .raiseAttributeError

/-- Whether the loop keeps running after the action (`continue` in the error
branches, fall-through after a broadcast; an uncaught exception unwinds). -/
def wsActionContinues : WsAction → Bool
  | .sendError _ _ => true
  | .relaySignal _ _ _ => true
  | .raiseAttributeError => false

/-- `ConnectionManager.broadcast` (main.py:123-137): deliver to every
connected participant of the token that is not excluded. -/
def broadcast_recipients (connected : List String)
    (exclusions : List String) : List String :=
  connected.filter (fun p => !(exclusions.contains p))

/-- `ConnectionManager.send` (main.py:139-143): unicast when the participant
is connected, silent no-op otherwise. -/
def send_recipients (connected : List String) (participant_id : String) :
    List String :=
  if connected.contains participant_id then [participant_id] else []

/-- Who receives the message(s) produced by one action, given the ids
currently connected under the session token. -/
def wsActionDeliveries (connected : List String) : WsAction → List String
  | .sendError pid _ => send_recipients connected pid
  | .relaySignal _ _ sender => broadcast_recipients connected [sender]
  | .raiseAttributeError => []

/-- Python `str.strip('"\x27')`: drop leading and trailing quote characters. -/
def stripQuoteChars (s : String) : String :=
  let cs := s.toList.dropWhile (fun c => c = '"' ∨ c = '\'')
  let cs := (cs.reverse.dropWhile (fun c => c = '"' ∨ c = '\'')).reverse
  String.mk cs

/-- Number of occurrences of a character (`host_part.count(":")`). -/
def countChar (c : Char) (s : String) : Nat :=
  (s.toList.filter (fun x => x = c)).length

/-- Python `str.isdigit()` restricted to ASCII digits: nonempty and all digits. -/
def pyIsDigit (s : String) : Bool :=
  s ≠ "" && s.toList.all Char.isDigit

/-- Python `s.split(sep, 1)[0]` for a one-character separator. -/
def beforeFirst (sep : Char) (s : String) : String :=
  String.mk (s.toList.takeWhile (fun c => c ≠ sep))

/-- Python `s.rsplit(":", 1)[-1]`. -/
def afterLastColon (s : String) : String :=
  String.mk ((s.toList.reverse.takeWhile (fun c => c ≠ ':')).reverse)

/-- Python `s.rsplit(":", 1)[0]` (the whole string when there is no colon). -/
def beforeLastColon (s : String) : String :=
  let l := s.toList
  let suffix := l.reverse.takeWhile (fun c => c ≠ ':')
  if suffix.length = l.length then s
  else String.mk (l.take (l.length - suffix.length - 1))

/-- One dotted-quad octet as accepted by `ipaddress.IPv4Address`: ASCII
digits, at most three of them, no leading zero, value at most 255. -/
def validIPv4Octet (s : String) : Bool :=
  s ≠ "" && s.toList.all Char.isDigit && s.length ≤ 3 &&
  !(s.length > 1 && s.toList.headD ' ' = '0') &&
  digitsToNat s.toList ≤ 255

/-- `ipaddress.IPv4Address` acceptance: exactly four valid octets. -/
def is_valid_ipv4 (s : String) : Bool :=
  let parts := splitOnChar '.' s
  parts.length = 4 && parts.all validIPv4Octet

/-- One IPv6 hextet: one to four hexadecimal digits. -/
def validHextet (s : String) : Bool :=
  s ≠ "" && s.length ≤ 4 &&
  s.toList.all (fun c =>
    c.isDigit ∨ ('a' ≤ c ∧ c ≤ 'f') ∨ ('A' ≤ c ∧ c ≤ 'F'))

/-- `ipaddress.IPv6Address` acceptance (scope ids never reach this point:
the caller splits on `%` first), following CPython
`_ip_int_from_string`: split on `:`, expand a trailing embedded IPv4 into
two hextets, then check the part count against the `::` abbreviation rules
and each remaining part as a hextet. -/
def is_valid_ipv6 (s : String) : Bool :=
  let parts0 := splitOnChar ':' s
  if parts0.length < 3 then false
  else
    let lastHasDot :=
      match parts0.getLast? with
      | some last => last.toList.contains '.'
      | none => false
    let lastIsValidV4 :=
      match parts0.getLast? with
      | some last => is_valid_ipv4 last
      | none => false
    if lastHasDot && !lastIsValidV4 then false
    else
      -- the two synthetic hextets produced from the embedded IPv4 are
      -- always valid hexadecimal strings, so "0" stands in for them
      let parts := if lastHasDot then parts0.dropLast ++ ["0", "0"] else parts0
      if parts.length > 9 then false
      else
        let inner := (parts.drop 1).dropLast
        let emptyInner := (inner.filter (fun p => p = "")).length
        if emptyInner > 1 then false
        else if emptyInner = 1 then
          let skip_index := 1 + inner.findIdx (fun p => p = "")
          let parts_hi0 := skip_index
          let parts_lo0 := parts.length - skip_index - 1
          let headEmpty := parts.head? = some ""
          let lastEmpty := parts.getLast? = some ""
          let parts_hi := if headEmpty then parts_hi0 - 1 else parts_hi0
          let parts_lo := if lastEmpty then parts_lo0 - 1 else parts_lo0
          if headEmpty && parts_hi ≠ 0 then false
          else if lastEmpty && parts_lo ≠ 0 then false
          else if 8 < parts_hi + parts_lo + 1 then false
          else
            (parts.take parts_hi).all validHextet &&
            (parts.drop (parts.length - parts_lo)).all validHextet
        else
          parts.length = 8 && parts.all validHextet

/-- `ipaddress.ip_address` acceptance: IPv4 first, then IPv6. -/
def is_valid_ip (s : String) : Bool :=
  is_valid_ipv4 s || is_valid_ipv6 s

/-- The validation tail of `_normalize_ip` (main.py:182-201), applied to the
prefix-stripped host part: accept a valid IP as is; otherwise heuristically
strip a trailing `:port` and validate the remainder. -/
def _normalize_ip_host (host_part : String) : Option String :=
  if is_valid_ip host_part then some host_part
  else
    let stripped_host : Option String :=
      if countChar ':' host_part = 1 ∧
          pyIsDigit (String.mk
            (host_part.toList.filter (fun c => c ≠ ':' ∧ c ≠ '.'))) then
        some (beforeFirst ':' host_part)
      else if countChar ':' host_part > 1 ∧
          pyIsDigit (afterLastColon host_part) then
        some (beforeLastColon host_part)
      else none
    match stripped_host with
    | none => none
    | some sh =>
      if sh = "" then none
      else if is_valid_ip sh then some sh else none

/-- `_normalize_ip` (main.py:161-201): trim and unquote, reject empty and the
literal `unknown`, strip one bracket pair, an `ipv6:` prefix, a `::ffff:`
IPv4-mapping prefix and a `%zone` suffix, then validate the host part. -/
def _normalize_ip (candidate : Option String) : Option String :=
  match candidate with
  | none => none
  | some raw =>
    if raw = "" then none
    else
      let value := stripQuoteChars (pyStrip raw)
      if value = "" ∨ strLower value = "unknown" then none
      else
        let value :=
          if strStartsWith value "[" ∧ strEndsWith value "]" then
            (value.drop 1).dropRight 1
          else value
        let value := if strStartsWith (strLower value) "ipv6:" then value.drop 5 else value
        let value := if strStartsWith value "::ffff:" then value.drop 7 else value
        _normalize_ip_host (beforeFirst '%' value)

/-- The request data `_candidate_ip_addresses` consumes. `forwarded_for_values`
stands for the values the `for=` regular expression
(`_iter_forwarded_for_values`) extracts from the `Forwarded` header, in order;
an absent or unproductive header gives the empty list. -/
structure Request where
  x_forwarded_for : List String
  x_real_ip : Option String
  forwarded_for_values : List String
  client_host : Option String

/-- The raw candidate strings in the order `_candidate_ip_addresses` feeds
them to `_normalize_ip`: each comma-separated piece of every
`X-Forwarded-For` value, then `X-Real-IP`, then the `Forwarded` extractions,
then the raw connection host. -/
def raw_candidate_strings (r : Request) : List String :=
  (r.x_forwarded_for.flatMap (fun h => splitOnChar ',' h))
    ++ (match r.x_real_ip with | some v => [v] | none => [])
    ++ r.forwarded_for_values
    ++ (match r.client_host with | some h => [h] | none => [])

/-- The normalize-and-deduplicate loop of `_candidate_ip_addresses`
(main.py:214-240), with `seen` as the accumulator. -/
def dedupNormalize : List String → List String → List String
  | [], _ => []
  | raw :: rest, seen =>
    match _normalize_ip (some raw) with
    | some v =>
      if seen.contains v then dedupNormalize rest seen
      else v :: dedupNormalize rest (v :: seen)
    | none => dedupNormalize rest seen

/-- `_candidate_ip_addresses` (main.py:214-240) as the ordered list it yields. -/
def _candidate_ip_addresses (r : Request) : List String :=
  dedupNormalize (raw_candidate_strings r) []

/-- `get_client_ip` (main.py:243-250): the first candidate, else `unknown`. -/
def get_client_ip (r : Option Request) : String :=
  match r with
  | none => "unknown"
  | some req => ((_candidate_ip_addresses req).head?).getD "unknown"

/-- Modelled from the spec: a private (RFC1918) or loopback IPv4 address, or
the IPv6 loopback — the class of candidates the spec says the resolver skips
("first non-private/non-loopback candidate"). No function of `main.py`
performs this classification; it exists only to state the spec side of the
refinement for the address-resolution claim. -/
def spec_is_private_or_loopback (ip : String) : Bool :=
  let octets := (splitOnChar '.' ip).filterMap (fun o =>
    if o ≠ "" && o.toList.all Char.isDigit then some (digitsToNat o.toList)
    else none)
  match octets with
  | [a, b, _, _] =>
    a = 10 ∨ (a = 172 ∧ 16 ≤ b ∧ b ≤ 31) ∨ (a = 192 ∧ b = 168) ∨ a = 127
  | _ => ip = "::1"

/-- Modelled from the spec: "the first non-private/non-loopback candidate
extracted from the proxy-forwarding headers ..., when no header yields a
valid candidate it falls back to the raw connection address". Stated over
the same raw candidate order and the same normalization as the code, with
the private/loopback filter the spec requires. -/
def spec_resolve_requester_address (r : Request) : String :=
  let headerRaws :=
    (r.x_forwarded_for.flatMap (fun h => splitOnChar ',' h))
      ++ (match r.x_real_ip with | some v => [v] | none => [])
      ++ r.forwarded_for_values
  let headerCandidates :=
    (headerRaws.filterMap (fun raw => _normalize_ip (some raw))).filter
      (fun ip => !spec_is_private_or_loopback ip)
  match headerCandidates.head? with
  | some ip => ip
  | none =>
    match _normalize_ip r.client_host with
    | some host => host
    | none => "unknown"

/-! ### Helper lemmas about the lazy state recomputation -/

theorem isTerminal_false_iff (st : SessionStatus) :
    st.isTerminal = false ↔
      st ≠ SessionStatus.closed ∧ st ≠ SessionStatus.expired ∧
        st ≠ SessionStatus.deleted := by
  cases st <;> simp [SessionStatus.isTerminal]

theorem ensure_session_state_cases (now : Int) (s : TokenSession) :
    ensure_session_state now s = s ∨
    ensure_session_state now s = { s with status := SessionStatus.expired } ∨
    ensure_session_state now s = { s with status := SessionStatus.closed } := by
  unfold ensure_session_state
  split
  · exact Or.inl rfl
  · split
    · exact Or.inr (Or.inl rfl)
    · split
      · exact Or.inr (Or.inr rfl)
      · exact Or.inl rfl

theorem ensure_session_state_terminal (now : Int) (s : TokenSession)
    (h : s.status.isTerminal = true) : ensure_session_state now s = s := by
  unfold ensure_session_state
  rw [h]
  simp

theorem ensure_session_state_of_not_terminal (now : Int) (s : TokenSession)
    (h : (ensure_session_state now s).status.isTerminal = false) :
    ensure_session_state now s = s := by
  rcases ensure_session_state_cases now s with heq | heq | heq
  · exact heq
  · rw [heq] at h
    simp [SessionStatus.isTerminal] at h
  · rw [heq] at h
    simp [SessionStatus.isTerminal] at h

theorem ensure_session_state_participants (now : Int) (s : TokenSession) :
    (ensure_session_state now s).participants = s.participants := by
  rcases ensure_session_state_cases now s with heq | heq | heq <;> rw [heq]

/-! ### Concrete fixtures used by the witness theorems -/

/-- A host participant fixture. -/
def hostW : SessionParticipant :=
  { id := "p1"
    role := "host"
    ip_address := "1.1.1.1"
    internal_ip_address := "172.17.0.2"
    client_identity := some "idA"
    request_headers := some "hA"
    joined_at := 10 }

/-- A guest participant fixture. -/
def guestW : SessionParticipant :=
  { id := "p2"
    role := "guest"
    ip_address := "2.2.2.2"
    internal_ip_address := "172.17.0.3"
    client_identity := some "idB"
    request_headers := some "hB"
    joined_at := 20 }

/-- An ACTIVE two-participant session fixture (live window 20..1820). -/
def activeSessionW : TokenSession :=
  { token := "tok"
    validity_expires_at := 1000
    session_ttl_seconds := 1800
    message_char_limit := 2000
    created_at := 0
    started_at := some 20
    ended_at := some 1820
    status := SessionStatus.active
    participants := [hostW, guestW] }

/-- A freshly issued zero-participant session fixture. -/
def issuedSessionW : TokenSession :=
  { token := "tok"
    validity_expires_at := 1000
    session_ttl_seconds := 1800
    message_char_limit := 2000
    created_at := 0
    started_at := none
    ended_at := none
    status := SessionStatus.issued
    participants := [] }

/-! ### Claim theorems -/

/-- C1: a session never has more than 2 participants — every successful join
on a session with at most 2 participants leaves at most 2 — and a join that
supplies no participant id, where neither the identity-based nor the
address-based reclaim matches an existing participant, on a joinable session
that already has 2 participants, fails with Conflict (the handler raises
before inserting anything, so no participant is created). -/
theorem join_session_capacity_and_conflict
    (now : Int) (ip iip : String) (hsnap : Option String)
    (rpid rci : Option String) (nid : String) (s0 : TokenSession) :
    (∀ s1 resp, join_session now ip iip hsnap rpid rci nid s0 = .ok (s1, resp) →
        s0.participants.length ≤ 2 → s1.participants.length ≤ 2) ∧
    (s0.participants.length = 2 →
      optStrTruthy rpid = false →
      (optStrTruthy rci = true → ∀ p ∈ s0.participants, p.client_identity ≠ rci) →
      (optStrTruthy rci = false → ∀ p ∈ s0.participants, p.ip_address ≠ ip) →
      (ensure_session_state now s0).status.isTerminal = false →
      join_session now ip iip hsnap rpid rci nid s0 =
        .error (.conflict "Session already has two participants.")) := by
  constructor
  · intro s1 resp hok hle
    have hparts := ensure_session_state_participants now s0
    simp only [join_session] at hok
    split at hok
    · exact absurd hok (by simp)
    · split at hok
      · exact absurd hok (by simp)
      · split at hok
        · exact absurd hok (by simp)
        · split at hok
          · split at hok
            · exact absurd hok (by simp)
            · rw [Except.ok.injEq, Prod.mk.injEq] at hok
              obtain ⟨h1, _⟩ := hok
              rw [← h1]
              simpa [hparts] using hle
          · split at hok
            · rw [Except.ok.injEq, Prod.mk.injEq] at hok
              obtain ⟨h1, _⟩ := hok
              rw [← h1]
              simpa [hparts] using hle
            · split at hok
              · exact absurd hok (by simp)
              · rename_i hlen
                rw [Except.ok.injEq, Prod.mk.injEq] at hok
                obtain ⟨h1, _⟩ := hok
                rw [← h1]
                rw [hparts] at hlen
                split <;> split <;>
                  simp only [List.length_append, List.length_cons, List.length_nil,
                    hparts] <;> omega
  · intro hfull hpid hnoid hnoip hterm
    have hens := ensure_session_state_of_not_terminal now s0 hterm
    rw [hens] at hterm
    rw [isTerminal_false_iff] at hterm
    obtain ⟨hc, he, hd⟩ := hterm
    simp only [join_session, hens]
    rw [if_neg he, if_neg hc, if_neg hd, if_neg (by simp [hpid])]
    by_cases hci : optStrTruthy rci = true
    · have hfind : s0.participants.find? (fun p => p.client_identity == rci) = none := by
        rw [List.find?_eq_none]
        intro p hp
        simpa using hnoid hci p hp
      simp only [hci, if_pos rfl, hfind]
      simp [hfull]
    · have hci' : optStrTruthy rci = false := by simpa using hci
      have hfind : s0.participants.find? (fun p => p.ip_address == ip) = none := by
        rw [List.find?_eq_none]
        intro p hp
        simpa using hnoip hci' p hp
      simp only [hci', hfind]
      simp [hfull]

/-- C1 witness: a third fresh identity joining the full active fixture
session is rejected with Conflict. -/
theorem join_session_capacity_and_conflict_witness :
    join_session 30 "3.3.3.3" "172.17.0.4" (some "h3") none (some "idC") "p3"
        activeSessionW =
      .error (.conflict "Session already has two participants.") :=
  (join_session_capacity_and_conflict 30 "3.3.3.3" "172.17.0.4" (some "h3")
    none (some "idC") "p3" activeSessionW).2 (by decide) (by decide)
    (by decide) (by decide) (by decide)

/-- A CLOSED session fixture. -/
def closedSessionW : TokenSession :=
  { activeSessionW with status := SessionStatus.closed }

/-- A DELETED session fixture. -/
def deletedSessionW : TokenSession :=
  { activeSessionW with status := SessionStatus.deleted }

/-- C2 (amended): terminal statuses and the operations of the code. The lazy
recomputation and the abuse-report transaction never touch a terminal
session; a DELETED status survives the explicit delete operation; but the
explicit delete operation moves every non-DELETED status — including the
terminal CLOSED and EXPIRED — to DELETED, and the expiry-timeout branch of
the real-time loop sets CLOSED whatever the recomputed status was. -/
theorem terminal_status_transitions :
    (∀ now s, s.status.isTerminal = true → ensure_session_state now s = s) ∧
    (∀ now rip rpid email summary qn s, s.status.isTerminal = true →
      (report_abuse now rip rpid email summary qn s).1 = s) ∧
    (∀ now s, s.status = SessionStatus.deleted → delete_session now s = s) ∧
    (∀ now s, (delete_session now s).status = SessionStatus.deleted) ∧
    (∀ now s, (websocket_timeout_handler now s).status = SessionStatus.closed) := by
  refine ⟨ensure_session_state_terminal, ?_, ?_, ?_, ?_⟩
  · intro now rip rpid email summary qn s h
    simp only [report_abuse, ensure_session_state_terminal now s h, h]
    simp
  · intro now s h
    have hterm : s.status.isTerminal = true := by
      rw [h]
      rfl
    simp only [delete_session, ensure_session_state_terminal now s hterm, h]
    simp
  · intro now s
    simp only [delete_session]
    split
    · rfl
    · rename_i hne
      simpa using hne
  · intro now s
    rfl

/-- C2 counterexample: the explicit delete operation changes the terminal
status CLOSED to DELETED, so a terminal status is not immutable under every
operation. -/
theorem terminal_status_change_counterexample :
    closedSessionW.status.isTerminal = true ∧
    (delete_session 30 closedSessionW).status = SessionStatus.deleted ∧
    (delete_session 30 closedSessionW).status ≠ closedSessionW.status ∧
    (websocket_timeout_handler 30 deletedSessionW).status ≠
      deletedSessionW.status := by
  refine ⟨rfl, by decide, by decide, by decide⟩

/-- C2 witness: the parts with hypotheses, applied at the DELETED fixture. -/
theorem terminal_status_transitions_witness :
    ensure_session_state 99 deletedSessionW = deletedSessionW ∧
    (report_abuse 99 (some "9.9.9.9") none "r@example.org" "ten chars long"
        ⟨false, false, false, none⟩ deletedSessionW).1 = deletedSessionW ∧
    delete_session 99 deletedSessionW = deletedSessionW :=
  ⟨terminal_status_transitions.1 99 deletedSessionW (by decide),
   terminal_status_transitions.2.1 99 (some "9.9.9.9") none "r@example.org"
     "ten chars long" ⟨false, false, false, none⟩ deletedSessionW (by decide),
   terminal_status_transitions.2.2.1 99 deletedSessionW (by decide)⟩

/-- The participant-list rewrite performed by a reclaim: the matched
participant's row is replaced by its metadata refresh, every other row is
left alone (`db.add(existing_participant)` on the loaded list). -/
def reclaimUpdate (ip iip : String) (rci hsnap : Option String)
    (q : SessionParticipant) (ps : List SessionParticipant) :
    List SessionParticipant :=
  ps.map (fun p => if p.id == q.id then
    updateParticipantMetadata ip iip rci hsnap q else p)

/-- C6: rejoining without a participant id, when the client identity (or —
with no identity supplied — the network address) matches an existing
participant `q`, returns `q`'s id and role, replaces only `q`'s metadata
fields (addresses, client identity, request-header snapshot, and only those:
the refresh keeps id, role and joined-at), and leaves the session's status,
live-start/end times, token, char limit and participant count unchanged. -/
theorem join_session_reclaim_idempotent
    (now : Int) (ip iip : String) (hsnap : Option String)
    (rci : Option String) (nid : String) (s0 : TokenSession)
    (q : SessionParticipant)
    (hterm : (ensure_session_state now s0).status.isTerminal = false)
    (hmatch : (if optStrTruthy rci = true then
        s0.participants.find? (fun p => p.client_identity == rci)
      else
        s0.participants.find? (fun p => p.ip_address == ip)) = some q) :
    join_session now ip iip hsnap none rci nid s0 =
      .ok ({ s0 with participants :=
              reclaimUpdate ip iip rci hsnap q s0.participants },
           { token := s0.token
             participant_id := q.id
             role := q.role
             session_active := s0.status = SessionStatus.active
             session_started_at := s0.started_at
             session_expires_at := s0.ended_at
             message_char_limit := s0.message_char_limit }) ∧
    (updateParticipantMetadata ip iip rci hsnap q).id = q.id ∧
    (updateParticipantMetadata ip iip rci hsnap q).role = q.role ∧
    (updateParticipantMetadata ip iip rci hsnap q).joined_at = q.joined_at ∧
    (reclaimUpdate ip iip rci hsnap q s0.participants).length =
      s0.participants.length := by
  have hens := ensure_session_state_of_not_terminal now s0 hterm
  rw [hens] at hterm
  rw [isTerminal_false_iff] at hterm
  obtain ⟨hc, he, hd⟩ := hterm
  refine ⟨?_, rfl, rfl, rfl, by simp [reclaimUpdate]⟩
  simp only [join_session, hens]
  rw [if_neg he, if_neg hc, if_neg hd, if_neg (by simp [optStrTruthy])]
  by_cases hci : optStrTruthy rci = true
  · rw [if_pos hci] at hmatch
    simp only [hci, if_pos rfl, hmatch]
    simp [mkJoinResponse, reclaimUpdate]
  · have hci' : optStrTruthy rci = false := by simpa using hci
    rw [if_neg (by simp [hci'])] at hmatch
    simp only [hci', hmatch]
    simp [mkJoinResponse, reclaimUpdate]

/-- C6 witness: rejoining the active fixture session with the guest's client
identity from a new address returns the guest's id and role. -/
theorem join_session_reclaim_idempotent_witness :
    (join_session 30 "5.5.5.5" "172.17.0.9" (some "h9") none (some "idB")
        "p9" activeSessionW).toOption.map
      (fun x => (x.2.participant_id, x.2.role)) = some ("p2", "guest") := by
  rw [(join_session_reclaim_idempotent 30 "5.5.5.5" "172.17.0.9" (some "h9")
    (some "idB") "p9" activeSessionW guestW (by decide) (by decide)).1]
  rfl


theorem ensure_session_state_ttl (now : Int) (s : TokenSession) :
    (ensure_session_state now s).session_ttl_seconds = s.session_ttl_seconds := by
  rcases ensure_session_state_cases now s with heq | heq | heq <;> rw [heq]

/-- The fresh participant row `SessionParticipant(...)` inserted by the
create branch of `join_session`, with the `uuid4().hex` id and the
`joined_at` column default. -/
def newParticipant (nid role ip iip : String) (rci hsnap : Option String)
    (now : Int) : SessionParticipant :=
  { id := nid
    role := role
    ip_address := ip
    internal_ip_address := iip
    client_identity := rci
    request_headers := hsnap
    joined_at := now }

/-- C5: role assignment and activation. (1) a join that creates the first
participant assigns role host and leaves status and the live timestamps
untouched; (2) a join that creates the second participant assigns role
guest and at that instant sets status ACTIVE, live-start `now` and live-end
`now + session_ttl_seconds` (so live-end minus live-start is exactly the
configured live duration, 1800 s for a 30-minute ttl); (3) whenever a
successful join changes the session status at all, it is the guest-creating
join and the ACTIVE timestamps are set as in (2); (4) every pre-existing
participant id keeps its original role through any successful join, so
reclaims never change a role. -/
theorem join_session_roles_and_activation
    (now : Int) (ip iip : String) (hsnap : Option String)
    (rpid rci : Option String) (nid : String) (s0 : TokenSession) :
    ((ensure_session_state now s0).status.isTerminal = false →
      optStrTruthy rpid = false →
      s0.participants = [] →
      join_session now ip iip hsnap rpid rci nid s0 =
        .ok ({ s0 with participants := [newParticipant nid "host" ip iip rci hsnap now] },
          mkJoinResponse
            { s0 with participants := [newParticipant nid "host" ip iip rci hsnap now] }
            nid "host")) ∧
    (∀ p0, (ensure_session_state now s0).status.isTerminal = false →
      optStrTruthy rpid = false →
      s0.participants = [p0] →
      (optStrTruthy rci = true → p0.client_identity ≠ rci) →
      (optStrTruthy rci = false → p0.ip_address ≠ ip) →
      join_session now ip iip hsnap rpid rci nid s0 =
        .ok ({ s0 with
                participants := [p0, newParticipant nid "guest" ip iip rci hsnap now]
                status := SessionStatus.active
                started_at := some now
                ended_at := some (now + s0.session_ttl_seconds) },
          mkJoinResponse
            { s0 with
                participants := [p0, newParticipant nid "guest" ip iip rci hsnap now]
                status := SessionStatus.active
                started_at := some now
                ended_at := some (now + s0.session_ttl_seconds) }
            nid "guest")) ∧
    (∀ s1 resp, join_session now ip iip hsnap rpid rci nid s0 = .ok (s1, resp) →
      s1.status ≠ (ensure_session_state now s0).status →
      resp.role = "guest" ∧ s1.status = SessionStatus.active ∧
        s1.started_at = some now ∧
        s1.ended_at = some (now + s0.session_ttl_seconds) ∧
        s1.participants.length = s0.participants.length + 1) ∧
    (∀ s1 resp, join_session now ip iip hsnap rpid rci nid s0 = .ok (s1, resp) →
      ∀ p1 ∈ s1.participants, p1.id ≠ nid →
        ∃ p0, p0 ∈ s0.participants ∧ p0.id = p1.id ∧ p0.role = p1.role) := by
  refine ⟨?_, ?_, ?_, ?_⟩
  · intro hterm hpid hempty
    have hens := ensure_session_state_of_not_terminal now s0 hterm
    rw [hens] at hterm
    rw [isTerminal_false_iff] at hterm
    obtain ⟨hc, he, hd⟩ := hterm
    simp only [join_session, hens, hempty]
    rw [if_neg he, if_neg hc, if_neg hd, if_neg (by simp [hpid])]
    simp [mkJoinResponse, newParticipant]
  · intro p0 hterm hpid hone hnoid hnoip
    have hens := ensure_session_state_of_not_terminal now s0 hterm
    rw [hens] at hterm
    rw [isTerminal_false_iff] at hterm
    obtain ⟨hc, he, hd⟩ := hterm
    simp only [join_session, hens, hone]
    rw [if_neg he, if_neg hc, if_neg hd, if_neg (by simp [hpid])]
    by_cases hci : optStrTruthy rci = true
    · simp [hci, hnoid hci, mkJoinResponse, newParticipant]
    · have hci' : optStrTruthy rci = false := by simpa using hci
      simp [hci', hnoip hci', mkJoinResponse, newParticipant]
  · intro s1 resp hok hne
    have hparts := ensure_session_state_participants now s0
    have httl := ensure_session_state_ttl now s0
    simp only [join_session] at hok
    split at hok
    · exact absurd hok (by simp)
    · split at hok
      · exact absurd hok (by simp)
      · split at hok
        · exact absurd hok (by simp)
        · split at hok
          · split at hok
            · exact absurd hok (by simp)
            · rw [Except.ok.injEq, Prod.mk.injEq] at hok
              obtain ⟨h1, _⟩ := hok
              rw [← h1] at hne
              simp at hne
          · split at hok
            · rw [Except.ok.injEq, Prod.mk.injEq] at hok
              obtain ⟨h1, _⟩ := hok
              rw [← h1] at hne
              simp at hne
            · split at hok
              · exact absurd hok (by simp)
              · split at hok
                · rw [if_neg (by decide)] at hok
                  rw [Except.ok.injEq, Prod.mk.injEq] at hok
                  obtain ⟨h1, _⟩ := hok
                  rw [← h1] at hne
                  simp at hne
                · rw [if_pos rfl] at hok
                  rw [Except.ok.injEq, Prod.mk.injEq] at hok
                  obtain ⟨h1, h2⟩ := hok
                  refine ⟨?_, ?_, ?_, ?_, ?_⟩
                  · rw [← h2]
                    rfl
                  · rw [← h1]
                  · rw [← h1]
                  · rw [← h1]
                    simp [httl]
                  · rw [← h1]
                    simp [hparts]
  · intro s1 resp hok p1 hp1 hne
    have hparts := ensure_session_state_participants now s0
    simp only [join_session] at hok
    split at hok
    · exact absurd hok (by simp)
    · split at hok
      · exact absurd hok (by simp)
      · split at hok
        · exact absurd hok (by simp)
        · split at hok
          · split at hok
            · exact absurd hok (by simp)
            · rename_i p hfind
              rw [Except.ok.injEq, Prod.mk.injEq] at hok
              obtain ⟨h1, _⟩ := hok
              rw [← h1] at hp1
              simp only [List.mem_map] at hp1
              obtain ⟨x, hx, hfx⟩ := hp1
              rw [hparts] at hx
              by_cases hxid : (x.id == (rpid.getD "")) = true
              · rw [if_pos hxid] at hfx
                refine ⟨p, ?_, ?_, ?_⟩
                · rw [← hparts]
                  exact List.mem_of_find?_eq_some hfind
                · rw [← hfx]
                  rfl
                · rw [← hfx]
                  rfl
              · rw [if_neg hxid] at hfx
                exact ⟨x, hx, by rw [hfx], by rw [hfx]⟩
          · split at hok
            · rename_i q hexist
              rw [Except.ok.injEq, Prod.mk.injEq] at hok
              obtain ⟨h1, _⟩ := hok
              rw [← h1] at hp1
              simp only [List.mem_map] at hp1
              obtain ⟨x, hx, hfx⟩ := hp1
              rw [hparts] at hx
              have hqmem : q ∈ s0.participants := by
                rw [← hparts]
                repeat' split at hexist
                all_goals first
                  | exact List.mem_of_find?_eq_some hexist
                  | exact absurd hexist (by simp)
              by_cases hxid : (x.id == q.id) = true
              · rw [if_pos hxid] at hfx
                refine ⟨q, hqmem, ?_, ?_⟩
                · rw [← hfx]
                  rfl
                · rw [← hfx]
                  rfl
              · rw [if_neg hxid] at hfx
                exact ⟨x, hx, by rw [hfx], by rw [hfx]⟩
            · split at hok
              · exact absurd hok (by simp)
              · split at hok
                · rw [if_neg (by decide)] at hok
                  rw [Except.ok.injEq, Prod.mk.injEq] at hok
                  obtain ⟨h1, _⟩ := hok
                  rw [← h1] at hp1
                  simp only [List.mem_append, List.mem_singleton] at hp1
                  rcases hp1 with hmem | hmem
                  · rw [hparts] at hmem
                    exact ⟨p1, hmem, rfl, rfl⟩
                  · rw [hmem] at hne
                    exact absurd rfl hne
                · rw [if_pos rfl] at hok
                  rw [Except.ok.injEq, Prod.mk.injEq] at hok
                  obtain ⟨h1, _⟩ := hok
                  rw [← h1] at hp1
                  simp only [List.mem_append, List.mem_singleton] at hp1
                  rcases hp1 with hmem | hmem
                  · rw [hparts] at hmem
                    exact ⟨p1, hmem, rfl, rfl⟩
                  · rw [hmem] at hne
                    exact absurd rfl hne


/-- A one-participant ISSUED session fixture. -/
def oneSessionW : TokenSession :=
  { issuedSessionW with participants := [hostW] }

/-- C5 witness: first join of the issued fixture yields role host with no
activation; the second join from a different identity yields role guest and
activates the live window 100..1900 (1800 seconds for the 30-minute ttl). -/
theorem join_session_roles_and_activation_witness :
    (join_session 50 "1.1.1.1" "172.17.0.2" (some "hA") none (some "idA")
        "p1" issuedSessionW).toOption.map
      (fun x => (x.2.role, x.1.status)) =
        some ("host", SessionStatus.issued) ∧
    (join_session 100 "2.2.2.2" "172.17.0.3" (some "hB") none (some "idB")
        "p2" oneSessionW).toOption.map
      (fun x => (x.2.role, x.1.status, x.1.started_at, x.1.ended_at)) =
        some ("guest", SessionStatus.active, some 100, some 1900) := by
  constructor
  · rw [(join_session_roles_and_activation 50 "1.1.1.1" "172.17.0.2"
      (some "hA") none (some "idA") "p1" issuedSessionW).1
      (by decide) (by decide) rfl]
    rfl
  · rw [(join_session_roles_and_activation 100 "2.2.2.2" "172.17.0.3"
      (some "hB") none (some "idB") "p2" oneSessionW).2.1 hostW
      (by decide) (by decide) rfl (by decide) (by decide)]
    rfl


theorem ensure_session_state_token (now : Int) (s : TokenSession) :
    (ensure_session_state now s).token = s.token := by
  rcases ensure_session_state_cases now s with heq | heq | heq <;> rw [heq]

/-- C4: filing an abuse report persists a report row with status OPEN for
the session's token whose remote-participants field is the frozen snapshot
(id, role, both addresses, client identity, join time) of exactly the
participants other than the resolved reporter — a reporter id that belongs
to no participant is demoted to anonymous instead of being rejected — and,
when the session is not terminal, force-transitions it to DELETED, setting
the live-end time to now and the live-start time when it was unset. -/
theorem report_abuse_snapshot_and_delete
    (now : Int) (rip : Option String) (rpid : Option String)
    (email summary : String) (qn : ReportAbuseQuestionnaire)
    (s0 s1 : TokenSession) (rec : AbuseReportRec)
    (heq : report_abuse now rip rpid email summary qn s0 = (s1, rec)) :
    rec.status = AbuseReportStatus.open_ ∧
    rec.session_token = s0.token ∧
    (optStrTruthy rpid = true → (∀ p ∈ s0.participants, some p.id ≠ rpid) →
      rec.participant_id = none) ∧
    (∀ p ∈ s0.participants, some p.id ≠ rec.participant_id →
      snapshotOfParticipant p ∈ rec.remote_participants) ∧
    (∀ e ∈ rec.remote_participants,
      ∃ p ∈ s0.participants, e = snapshotOfParticipant p) ∧
    (∀ e ∈ rec.remote_participants, optStrTruthy rec.participant_id = true →
      some e.participant_id ≠ rec.participant_id) ∧
    ((ensure_session_state now s0).status.isTerminal = false →
      s1.status = SessionStatus.deleted ∧
      s1.ended_at = some now ∧
      (s0.started_at = none → s1.started_at = some now) ∧
      (∀ t, s0.started_at = some t → s1.started_at = some t)) := by
  have hparts := ensure_session_state_participants now s0
  have htok := ensure_session_state_token now s0
  simp only [report_abuse] at heq
  rw [Prod.mk.injEq] at heq
  obtain ⟨h1, h2⟩ := heq
  refine ⟨by rw [← h2], by rw [← h2]; exact htok, ?_, ?_, ?_, ?_, ?_⟩
  · intro htr hno
    rw [← h2]
    simp only [hparts]
    simp only [htr, Bool.true_and]
    have hany : s0.participants.any (fun p => some p.id == rpid) = false := by
      rw [List.any_eq_false]
      intro p hp
      simpa using hno p hp
    rw [hany]
    simp
  · intro p hp hne
    rw [← h2] at hne ⊢
    simp only [_collect_remote_participants, hparts] at hne ⊢
    rw [List.mem_map]
    refine ⟨p, ?_, rfl⟩
    rw [List.mem_filter]
    refine ⟨hp, ?_⟩
    simp only [Bool.not_eq_true']
    rw [Bool.and_eq_false_iff]
    by_cases ht : optStrTruthy (if optStrTruthy rpid = true &&
        !(s0.participants.any (fun p => some p.id == rpid)) then none else rpid) = true
    · right
      rw [beq_eq_false_iff_ne]
      intro hcontra
      exact hne (by rw [hcontra])
    · left
      simpa using ht
  · intro e he
    rw [← h2] at he
    simp only [_collect_remote_participants, hparts, List.mem_map] at he
    obtain ⟨p, hpmem, hpe⟩ := he
    exact ⟨p, (List.mem_filter.mp hpmem).1, hpe.symm⟩
  · intro e he htr
    rw [← h2] at he htr ⊢
    dsimp only at htr ⊢
    simp only [hparts] at htr ⊢
    simp only [_collect_remote_participants, hparts, List.mem_map] at he
    obtain ⟨p, hpmem, hpe⟩ := he
    have hfilt := (List.mem_filter.mp hpmem).2
    simp only [Bool.not_eq_true'] at hfilt
    rw [Bool.and_eq_false_iff] at hfilt
    rcases hfilt with hfilt | hfilt
    · rw [htr] at hfilt
      exact absurd hfilt (by simp)
    · rw [beq_eq_false_iff_ne] at hfilt
      intro hcontra
      apply hfilt
      rw [← hcontra, ← hpe]
      rfl
  · intro hterm
    rw [← h1]
    simp only [hterm]
    refine ⟨by simp, by simp, ?_, ?_⟩
    · intro hnone
      have hsa : (ensure_session_state now s0).started_at = s0.started_at := by
        rcases ensure_session_state_cases now s0 with hq | hq | hq <;> rw [hq]
      simp [hsa, hnone]
    · intro t ht
      have hsa : (ensure_session_state now s0).started_at = s0.started_at := by
        rcases ensure_session_state_cases now s0 with hq | hq | hq <;> rw [hq]
      simp [hsa, ht]


/-- C4 witness: reporting the active fixture session with an unknown
reporter id files an unattributed report and deletes the session. -/
theorem report_abuse_snapshot_and_delete_witness :
    (report_abuse 50 (some "9.9.9.9") (some "nobody") "r@example.org"
        "bad behavior here" ⟨true, false, false, none⟩
        activeSessionW).2.participant_id = none ∧
    (report_abuse 50 (some "9.9.9.9") (some "nobody") "r@example.org"
        "bad behavior here" ⟨true, false, false, none⟩
        activeSessionW).1.status = SessionStatus.deleted ∧
    (report_abuse 50 (some "9.9.9.9") (some "nobody") "r@example.org"
        "bad behavior here" ⟨true, false, false, none⟩
        activeSessionW).1.ended_at = some 50 := by
  have h := report_abuse_snapshot_and_delete 50 (some "9.9.9.9")
    (some "nobody") "r@example.org" "bad behavior here"
    ⟨true, false, false, none⟩ activeSessionW
    (report_abuse 50 (some "9.9.9.9") (some "nobody") "r@example.org"
      "bad behavior here" ⟨true, false, false, none⟩ activeSessionW).1
    (report_abuse 50 (some "9.9.9.9") (some "nobody") "r@example.org"
      "bad behavior here" ⟨true, false, false, none⟩ activeSessionW).2 rfl
  exact ⟨h.2.2.1 (by decide) (by decide),
    (h.2.2.2.2.2.2 (by decide)).1, (h.2.2.2.2.2.2 (by decide)).2.1⟩


/-- The identifier-dependent window filter of `enforce_rate_limit`, pulled
into one predicate: rows of the client identity when it is truthy, rows of
the address otherwise, restricted to the trailing 3600-second window. -/
theorem rate_limit_filter_split (now : Int) (logs : List TokenRequestLog)
    (ip : String) (ci : Option String) :
    logs.filter (fun l =>
      (if optStrTruthy ci = true then l.client_identity == ci
       else l.ip_address == ip) && l.created_at ≥ now - 3600) =
      (if optStrTruthy ci = true then
        logs.filter (fun l => l.client_identity == ci && l.created_at ≥ now - 3600)
      else
        logs.filter (fun l => l.ip_address == ip && l.created_at ≥ now - 3600)) := by
  by_cases h : optStrTruthy ci = true <;> simp [h]

/-- `issue_token` when the identifier's window count has reached the
threshold: the 429 error, raised before any row is written. -/
theorem issue_token_blocked
    (threshold : Nat) (minL maxL now : Int)
    (logs : List TokenRequestLog) (ip iip : String) (ci : Option String)
    (vp : ValidityPeriod) (ttlm mcl : Int) (tok : String)
    (hge : (logs.filter (fun l =>
      (if optStrTruthy ci = true then l.client_identity == ci
       else l.ip_address == ip) && l.created_at ≥ now - 3600)).length ≥
        threshold) :
    issue_token threshold minL maxL now logs ip iip ci vp ttlm mcl tok =
      .error (.tooManyRequests
        "Token request limit reached for this identifier. Please try again later.") := by
  rw [rate_limit_filter_split] at hge
  simp only [issue_token, enforce_rate_limit]
  by_cases h : optStrTruthy ci = true
  · rw [if_pos h] at hge
    rw [if_pos h, if_pos hge]
  · rw [if_neg h] at hge
    rw [if_neg h, if_pos hge]

/-- `issue_token` when the identifier's window count is below the threshold:
success, the session row, and exactly one appended request-log row. -/
theorem issue_token_appends
    (threshold : Nat) (minL maxL now : Int)
    (logs : List TokenRequestLog) (ip iip : String) (ci : Option String)
    (vp : ValidityPeriod) (ttlm mcl : Int) (tok : String)
    (hlt : (logs.filter (fun l =>
      (if optStrTruthy ci = true then l.client_identity == ci
       else l.ip_address == ip) && l.created_at ≥ now - 3600)).length <
        threshold) :
    issue_token threshold minL maxL now logs ip iip ci vp ttlm mcl tok =
      .ok (logs ++ [{ ip_address := ip
                      internal_ip_address := iip
                      client_identity := ci
                      created_at := now }],
        { token := tok
          validity_expires_at := now + vp.as_timedelta
          session_ttl_seconds := ttlm * 60
          message_char_limit := min (max mcl minL) maxL
          created_at := now
          started_at := none
          ended_at := none
          status := SessionStatus.issued
          participants := [] }) := by
  rw [rate_limit_filter_split] at hlt
  simp only [issue_token, enforce_rate_limit]
  by_cases h : optStrTruthy ci = true
  · rw [if_pos h] at hlt
    have hnot : ¬ ((logs.filter (fun l =>
        l.client_identity == ci && l.created_at ≥ now - 3600)).length ≥
          threshold) := by omega
    rw [if_pos h, if_neg hnot]
  · rw [if_neg h] at hlt
    have hnot : ¬ ((logs.filter (fun l =>
        l.ip_address == ip && l.created_at ≥ now - 3600)).length ≥
          threshold) := by omega
    rw [if_neg h, if_neg hnot]

/-- C3: token-issuance rate limiting. When the requesting identifier (the
client identity when truthy, else the resolved address) already has at least
`threshold` request-log rows inside the trailing 3600-second window,
issuance fails with the 429 error and returns no new state (the exception
aborts the transaction, so no log row is recorded); below the threshold it
succeeds and appends exactly one log row for that identifier; in particular
once every stored row has slid out of the window, issuance (with a positive
threshold) succeeds again. -/
theorem issue_token_rate_limit_behavior
    (threshold : Nat) (minL maxL now : Int)
    (logs : List TokenRequestLog) (ip iip : String) (ci : Option String)
    (vp : ValidityPeriod) (ttlm mcl : Int) (tok : String) :
    ((logs.filter (fun l =>
        (if optStrTruthy ci = true then l.client_identity == ci
         else l.ip_address == ip) && l.created_at ≥ now - 3600)).length ≥
          threshold →
      issue_token threshold minL maxL now logs ip iip ci vp ttlm mcl tok =
        .error (.tooManyRequests
          "Token request limit reached for this identifier. Please try again later.")) ∧
    ((logs.filter (fun l =>
        (if optStrTruthy ci = true then l.client_identity == ci
         else l.ip_address == ip) && l.created_at ≥ now - 3600)).length <
          threshold →
      issue_token threshold minL maxL now logs ip iip ci vp ttlm mcl tok =
        .ok (logs ++ [{ ip_address := ip
                        internal_ip_address := iip
                        client_identity := ci
                        created_at := now }],
          { token := tok
            validity_expires_at := now + vp.as_timedelta
            session_ttl_seconds := ttlm * 60
            message_char_limit := min (max mcl minL) maxL
            created_at := now
            started_at := none
            ended_at := none
            status := SessionStatus.issued
            participants := [] })) ∧
    ((∀ l ∈ logs, l.created_at < now - 3600) → 0 < threshold →
      issue_token threshold minL maxL now logs ip iip ci vp ttlm mcl tok =
        .ok (logs ++ [{ ip_address := ip
                        internal_ip_address := iip
                        client_identity := ci
                        created_at := now }],
          { token := tok
            validity_expires_at := now + vp.as_timedelta
            session_ttl_seconds := ttlm * 60
            message_char_limit := min (max mcl minL) maxL
            created_at := now
            started_at := none
            ended_at := none
            status := SessionStatus.issued
            participants := [] })) := by
  refine ⟨issue_token_blocked threshold minL maxL now logs ip iip ci vp ttlm mcl tok,
    issue_token_appends threshold minL maxL now logs ip iip ci vp ttlm mcl tok, ?_⟩
  intro hold hpos
  apply issue_token_appends
  have hemp : logs.filter (fun l =>
      (if optStrTruthy ci = true then l.client_identity == ci
       else l.ip_address == ip) && l.created_at ≥ now - 3600) = [] := by
    rw [List.filter_eq_nil_iff]
    intro l hl
    have := hold l hl
    simp only [Bool.and_eq_true, decide_eq_true_eq, not_and]
    intro _
    omega
  rw [hemp]
  simpa using hpos


/-- Ten request-log rows for the same address, all at time 100. -/
def rateLogsW : List TokenRequestLog :=
  List.replicate 10
    { ip_address := "8.8.8.8"
      internal_ip_address := "172.17.0.5"
      client_identity := none
      created_at := 100 }

/-- C3 witness: with the default threshold 10, an 11th request at time 3000
(window start -600, all ten rows inside) is rejected; the same request at
time 7000 (window start 3400, every row outside) succeeds and appends one
row. -/
theorem issue_token_rate_limit_behavior_witness :
    issue_token 10 200 16000 3000 rateLogsW "8.8.8.8" "172.17.0.5" none
        ValidityPeriod.one_day 30 2000 "tokA" =
      .error (.tooManyRequests
        "Token request limit reached for this identifier. Please try again later.") ∧
    (issue_token 10 200 16000 7000 rateLogsW "8.8.8.8" "172.17.0.5" none
        ValidityPeriod.one_day 30 2000 "tokA").toOption.map
      (fun x => (x.1.length, x.2.validity_expires_at, x.2.session_ttl_seconds,
        x.2.message_char_limit, x.2.status)) =
      some (11, 93400, 1800, 2000, SessionStatus.issued) := by
  constructor
  · exact (issue_token_rate_limit_behavior 10 200 16000 3000 rateLogsW
      "8.8.8.8" "172.17.0.5" none ValidityPeriod.one_day 30 2000 "tokA").1
      (by decide)
  · rw [(issue_token_rate_limit_behavior 10 200 16000 7000 rateLogsW
      "8.8.8.8" "172.17.0.5" none ValidityPeriod.one_day 30 2000 "tokA").2.2
      (by decide) (by decide)]
    rfl


/-- C9: the administrative report update fails BadRequest when no field is
provided, fails NotFound when the report id is unknown, and otherwise
returns the stored report with exactly the provided fields applied (status
verbatim; escalation step and admin notes through the strip/empty-to-none
normalization) and every other field unchanged. -/
theorem update_admin_report_fields
    (updates : AdminUpdateAbuseReportRequest)
    (reports : List (Nat × AbuseReportRec)) (rid : Nat) :
    (updates.status = none → updates.escalation_step = none →
      updates.admin_notes = none →
      update_admin_report updates reports rid =
        .error (.badRequest "At least one field must be provided to update the report.")) ∧
    (¬(updates.status = none ∧ updates.escalation_step = none ∧
        updates.admin_notes = none) →
      reports.find? (fun r => r.fst == rid) = none →
      update_admin_report updates reports rid =
        .error (.notFound "Abuse report not found.")) ∧
    (∀ idx rep, ¬(updates.status = none ∧ updates.escalation_step = none ∧
        updates.admin_notes = none) →
      reports.find? (fun r => r.fst == rid) = some (idx, rep) →
      update_admin_report updates reports rid =
        .ok { rep with
              status := updates.status.getD rep.status
              escalation_step := match updates.escalation_step with
                | some es => _normalize_optional_text (some es)
                | none => rep.escalation_step
              admin_notes := match updates.admin_notes with
                | some an => _normalize_optional_text (some an)
                | none => rep.admin_notes }) := by
  refine ⟨?_, ?_, ?_⟩
  · intro h1 h2 h3
    simp [update_admin_report, h1, h2, h3]
  · intro hne hfind
    rw [update_admin_report, if_neg hne, hfind]
    rfl
  · intro idx rep hne hfind
    rw [update_admin_report, if_neg hne, hfind]
    rcases updates with ⟨us, ue, ua⟩
    cases us <;> cases ue <;> cases ua <;> rfl


/-- A stored abuse-report fixture. -/
def reportW : AbuseReportRec :=
  { session_token := "tok"
    reporter_email := "r@example.org"
    reporter_ip := some "9.9.9.9"
    participant_id := some "p1"
    remote_participants := [snapshotOfParticipant guestW]
    summary := "bad behavior here"
    questionnaire := ⟨true, false, false, none⟩
    escalation_step := none
    admin_notes := none
    status := AbuseReportStatus.open_ }

/-- C9 witness: an empty update is rejected, an unknown id is not found,
and a status-plus-notes update rewrites exactly those two fields (the notes
trimmed) on the stored fixture. -/
theorem update_admin_report_fields_witness :
    update_admin_report ⟨none, none, none⟩ [(1, reportW)] 1 =
      .error (.badRequest "At least one field must be provided to update the report.") ∧
    update_admin_report ⟨some AbuseReportStatus.acknowledged, none,
        some "  note  "⟩ [(1, reportW)] 2 =
      .error (.notFound "Abuse report not found.") ∧
    update_admin_report ⟨some AbuseReportStatus.acknowledged, none,
        some "  note  "⟩ [(1, reportW)] 1 =
      .ok { reportW with
            status := AbuseReportStatus.acknowledged
            admin_notes := some "note" } := by
  refine ⟨(update_admin_report_fields ⟨none, none, none⟩ [(1, reportW)] 1).1
    rfl rfl rfl, ?_, ?_⟩
  · exact (update_admin_report_fields ⟨some AbuseReportStatus.acknowledged,
      none, some "  note  "⟩ [(1, reportW)] 2).2.1 (by simp) (by decide)
  · rw [(update_admin_report_fields ⟨some AbuseReportStatus.acknowledged,
      none, some "  note  "⟩ [(1, reportW)] 1).2.2 1 reportW (by simp)
      (by decide)]
    rfl


theorem _normalize_ip_host_valid (hp v : String)
    (h : _normalize_ip_host hp = some v) : is_valid_ip v = true := by
  simp only [_normalize_ip_host] at h
  split at h
  · rename_i hvalid
    rw [Option.some.injEq] at h
    rw [← h]
    exact hvalid
  · split at h
    · exact absurd h (by simp)
    · split at h
      · exact absurd h (by simp)
      · split at h
        · rename_i hvalid
          rw [Option.some.injEq] at h
          rw [← h]
          exact hvalid
        · exact absurd h (by simp)

theorem _normalize_ip_valid (s v : String)
    (h : _normalize_ip (some s) = some v) : is_valid_ip v = true := by
  simp only [_normalize_ip] at h
  split at h
  · exact absurd h (by simp)
  · split at h
    · exact absurd h (by simp)
    · exact _normalize_ip_host_valid _ v h

theorem dedupNormalize_nil_head (raws : List String) :
    (dedupNormalize raws []).head? =
      (raws.filterMap (fun raw => _normalize_ip (some raw))).head? := by
  induction raws with
  | nil => rfl
  | cons raw rest ih =>
    simp only [dedupNormalize, List.filterMap_cons]
    cases hn : _normalize_ip (some raw) with
    | none => simpa using ih
    | some v => simp

/-- C7 (amended): requester-address resolution returns the first candidate
from the headers, in order X-Forwarded-For entries (comma-split), X-Real-IP,
then the Forwarded extractions, that survives the normalization (brackets,
`ipv6:`/`::ffff:` prefixes, zone ids and trailing ports stripped, the result
validated as a real IP) — with no private/loopback filtering — and falls
back to the normalized raw connection address, else the literal `unknown`;
every candidate the normalization produces is a valid IP address. -/
theorem get_client_ip_first_candidate (r : Request) :
    get_client_ip (some r) =
      (((raw_candidate_strings r).filterMap
        (fun raw => _normalize_ip (some raw))).head?).getD "unknown" ∧
    (∀ s v, _normalize_ip (some s) = some v → is_valid_ip v = true) := by
  constructor
  · simp only [get_client_ip, _candidate_ip_addresses]
    rw [dedupNormalize_nil_head]
  · exact _normalize_ip_valid



/-- A request whose X-Forwarded-For chain leads with a private address. -/
def privateForwardReqW : Request :=
  { x_forwarded_for := ["10.0.0.1, 8.8.8.8"]
    x_real_ip := none
    forwarded_for_values := []
    client_host := some "127.0.0.1" }

/-- C7 counterexample: with `X-Forwarded-For: 10.0.0.1, 8.8.8.8` the code
returns the private `10.0.0.1`, not the first non-private candidate
`8.8.8.8` the spec describes. -/
theorem get_client_ip_private_counterexample :
    get_client_ip (some privateForwardReqW) = "10.0.0.1" ∧
    spec_is_private_or_loopback "10.0.0.1" = true ∧
    spec_resolve_requester_address privateForwardReqW = "8.8.8.8" ∧
    get_client_ip (some privateForwardReqW) ≠
      spec_resolve_requester_address privateForwardReqW := by
  refine ⟨by decide, by decide, by decide, by decide⟩

/-- C7 witness: the amended resolution evaluated on the fixture request,
and validity of a concretely normalized candidate. -/
theorem get_client_ip_first_candidate_witness :
    get_client_ip (some privateForwardReqW) =
      (((raw_candidate_strings privateForwardReqW).filterMap
        (fun raw => _normalize_ip (some raw))).head?).getD "unknown" ∧
    is_valid_ip "8.8.8.8" = true :=
  ⟨(get_client_ip_first_candidate privateForwardReqW).1,
   (get_client_ip_first_candidate privateForwardReqW).2 " 8.8.8.8 " "8.8.8.8"
     (by decide)⟩


/-- C10: when no forwarded-header value and no connection address yields a
valid IP, `get_client_ip` returns the literal `unknown`; a request that also
supplies no client identity is then counted under the shared identifier
`unknown`: once that bucket holds `threshold` rows in the window the request
is rejected, and below the threshold issuance succeeds and appends one more
`unknown` row — such requests are not exempt from the quota. -/
theorem unknown_address_rate_limited
    (r : Request) (threshold : Nat) (minL maxL now : Int)
    (logs : List TokenRequestLog) (iip : String) (vp : ValidityPeriod)
    (ttlm mcl : Int) (tok : String) :
    ((raw_candidate_strings r).filterMap (fun raw => _normalize_ip (some raw)) = [] →
      get_client_ip (some r) = "unknown") ∧
    ((logs.filter (fun l => l.ip_address == "unknown" &&
        l.created_at ≥ now - 3600)).length ≥ threshold →
      issue_token threshold minL maxL now logs "unknown" iip none vp ttlm mcl tok =
        .error (.tooManyRequests
          "Token request limit reached for this identifier. Please try again later.")) ∧
    ((logs.filter (fun l => l.ip_address == "unknown" &&
        l.created_at ≥ now - 3600)).length < threshold →
      ∃ sess, issue_token threshold minL maxL now logs "unknown" iip none vp ttlm mcl tok =
        .ok (logs ++ [{ ip_address := "unknown"
                        internal_ip_address := iip
                        client_identity := none
                        created_at := now }], sess)) := by
  refine ⟨?_, ?_, ?_⟩
  · intro hempty
    simp only [get_client_ip, _candidate_ip_addresses]
    rw [dedupNormalize_nil_head, hempty]
    rfl
  · intro hge
    exact issue_token_blocked threshold minL maxL now logs "unknown" iip none
      vp ttlm mcl tok hge
  · intro hlt
    exact ⟨_, issue_token_appends threshold minL maxL now logs "unknown" iip
      none vp ttlm mcl tok hlt⟩

/-- A request none of whose candidates is a valid IP. -/
def unknownReqW : Request :=
  { x_forwarded_for := ["not-an-ip"]
    x_real_ip := some "unknown"
    forwarded_for_values := []
    client_host := none }

/-- Ten request-log rows already accumulated under `unknown`. -/
def unknownLogsW : List TokenRequestLog :=
  List.replicate 10
    { ip_address := "unknown"
      internal_ip_address := "unknown"
      client_identity := none
      created_at := 100 }

/-- C10 witness: the fixture request resolves to `unknown` and the 11th
`unknown` request inside the window is rejected. -/
theorem unknown_address_rate_limited_witness :
    get_client_ip (some unknownReqW) = "unknown" ∧
    issue_token 10 200 16000 3000 unknownLogsW "unknown" "unknown" none
        ValidityPeriod.one_day 30 2000 "tokB" =
      .error (.tooManyRequests
        "Token request limit reached for this identifier. Please try again later.") :=
  ⟨(unknown_address_rate_limited unknownReqW 10 200 16000 3000 unknownLogsW
      "unknown" ValidityPeriod.one_day 30 2000 "tokB").1 (by decide),
   (unknown_address_rate_limited unknownReqW 10 200 16000 3000 unknownLogsW
      "unknown" ValidityPeriod.one_day 30 2000 "tokB").2.1 (by decide)⟩


/-- C8 (amended): inbound real-time frames. Invalid JSON, a JSON object
whose type is not the string `signal`, and a signal object without a truthy
signalType each produce a private error unicast to the sender only, and the
receive loop continues; a signal object with a truthy signalType is relayed,
with its signalType and payload and tagged with the sender id, to exactly
the other connected participants of the session — never back to the sender;
but a valid-JSON payload that is not an object makes `payload.get` raise an
uncaught AttributeError that terminates the connection loop with nothing
sent. -/
theorem ws_inbound_handling (sender : String) (connected : List String) :
    (handle_inbound sender .invalidJson =
      .sendError sender "Invalid payload format.") ∧
    (∀ fields, jsonGet fields "type" ≠ some (Json.str "signal") →
      handle_inbound sender (.parsed (Json.obj fields)) =
        .sendError sender "Unsupported message type.") ∧
    (∀ fields, jsonGet fields "type" = some (Json.str "signal") →
      jsonTruthy (jsonGet fields "signalType") = false →
      handle_inbound sender (.parsed (Json.obj fields)) =
        .sendError sender "signalType is required.") ∧
    (∀ fields stv, jsonGet fields "type" = some (Json.str "signal") →
      jsonGet fields "signalType" = some stv →
      jsonTruthy (some stv) = true →
      handle_inbound sender (.parsed (Json.obj fields)) =
        .relaySignal stv (jsonGet fields "payload") sender) ∧
    (∀ payload, (∀ fields, payload ≠ Json.obj fields) →
      handle_inbound sender (.parsed payload) = .raiseAttributeError) ∧
    (∀ pid msg, wsActionContinues (.sendError pid msg) = true ∧
      wsActionDeliveries connected (.sendError pid msg) =
        (if connected.contains pid then [pid] else [])) ∧
    (∀ stv pl, wsActionContinues (.relaySignal stv pl sender) = true ∧
      sender ∉ wsActionDeliveries connected (.relaySignal stv pl sender) ∧
      (∀ q ∈ connected, q ≠ sender →
        q ∈ wsActionDeliveries connected (.relaySignal stv pl sender))) ∧
    wsActionContinues WsAction.raiseAttributeError = false := by
  refine ⟨rfl, ?_, ?_, ?_, ?_, ?_, ?_, rfl⟩
  · intro fields hne
    simp only [handle_inbound]
    cases hj : jsonGet fields "type" with
    | none => rfl
    | some j =>
      cases j with
      | null => rfl
      | bool b => rfl
      | num n => rfl
      | str t =>
        have ht : t ≠ "signal" := by
          intro h
          exact hne (by rw [hj, h])
        simp [ht]
      | arr es => rfl
      | obj fs => rfl
  · intro fields hsig htr
    simp only [handle_inbound, hsig, htr]
    rfl
  · intro fields stv hsig hst htr
    simp only [handle_inbound, hsig, hst, htr]
    simp [htr]
  · intro payload hno
    cases payload with
    | obj fs => exact absurd rfl (hno fs)
    | null => rfl
    | bool b => rfl
    | num n => rfl
    | str t => rfl
    | arr es => rfl
  · intro pid msg
    exact ⟨rfl, rfl⟩
  · intro stv pl
    refine ⟨rfl, ?_, ?_⟩
    · simp [wsActionDeliveries, broadcast_recipients]
    · intro q hq hne
      simp [wsActionDeliveries, broadcast_recipients, hq, hne]

/-- C8 counterexample: the valid-JSON payload `[]` has no recognized type,
yet instead of a private error reply the handler raises AttributeError,
ending the loop; so the claim's error-handling guarantee fails on it. -/
theorem ws_nonobject_payload_counterexample :
    handle_inbound "p1" (.parsed (Json.arr [])) = .raiseAttributeError ∧
    wsActionContinues (handle_inbound "p1" (.parsed (Json.arr []))) = false ∧
    wsActionDeliveries ["p1", "p2"]
      (handle_inbound "p1" (.parsed (Json.arr []))) = [] :=
  ⟨rfl, rfl, rfl⟩

/-- C8 witness: a concrete unsupported-type object, a signal without
signalType, and a relayed signal delivered to the other participant only. -/
theorem ws_inbound_handling_witness :
    handle_inbound "p1" (.parsed (Json.obj [("type", Json.str "chat")])) =
      .sendError "p1" "Unsupported message type." ∧
    handle_inbound "p1" (.parsed (Json.obj [("type", Json.str "signal")])) =
      .sendError "p1" "signalType is required." ∧
    handle_inbound "p1" (.parsed (Json.obj [("type", Json.str "signal"),
        ("signalType", Json.str "offer"), ("payload", Json.str "sdp")])) =
      .relaySignal (Json.str "offer") (some (Json.str "sdp")) "p1" ∧
    wsActionDeliveries ["p1", "p2"]
      (.relaySignal (Json.str "offer") (some (Json.str "sdp")) "p1") = ["p2"] := by
  refine ⟨(ws_inbound_handling "p1" ["p1", "p2"]).2.1
      [("type", Json.str "chat")] (by intro h; simp [jsonGet] at h),
    (ws_inbound_handling "p1" ["p1", "p2"]).2.2.1
      [("type", Json.str "signal")] rfl rfl,
    (ws_inbound_handling "p1" ["p1", "p2"]).2.2.2.1
      [("type", Json.str "signal"), ("signalType", Json.str "offer"),
        ("payload", Json.str "sdp")] (Json.str "offer") rfl rfl rfl, rfl⟩

end ChatOrbit
